import Mathlib

/-!
# Verification of the CQI Dashboard backend (`app.py`)

A shallow embedding of the query-construction and result-normalization
pipeline of the CQI Dashboard Flask API, together with theorems checking
the claims of the specification against it.

Python scalar values are modelled by `PyVal` (None, floats with NaN and
the two infinities, integers, strings, and an opaque "other" case);
finite floats are modelled by rationals, which is adequate here because
the sanitizers only compare and truncate, never round.  Python string
primitives (`strip`, `split`, `lower`, `float(...)`) are modelled by
structurally recursive functions over the character list of a `String`,
so that every definition evaluates on concrete inputs.
-/

namespace CqxDash

/-! ## Python string primitives -/

/-- Model of Python `str.strip()`: drop whitespace from both ends. -/
def pyStrip (s : String) : String :=
  ⟨((s.data.dropWhile Char.isWhitespace).reverse.dropWhile
      Char.isWhitespace).reverse⟩

/-- Model of Python `str.lower()` for the ASCII range. -/
def pyLower (s : String) : String :=
  ⟨s.data.map Char.toLower⟩

/-- Split a character list at every occurrence of `sep`
(Python `str.split(sep)` with a one-character separator:
`"".split(",") = [""]`, `",".split(",") = ["", ""]`). -/
def splitOnCharList (sep : Char) : List Char → List (List Char)
  | [] => [[]]
  | c :: cs =>
      let rest := splitOnCharList sep cs
      if c = sep then [] :: rest
      else
        match rest with
        | [] => [[c]]
        | r :: rs => (c :: r) :: rs

/-- Model of Python `str.split(sep)` with a one-character separator. -/
def pySplit (s : String) (sep : Char) : List String :=
  (splitOnCharList sep s.data).map (fun cs => ⟨cs⟩)

/-! ## Python numeric values and the sanitizers -/

/-- A Python float: NaN, ±Infinity, or a finite value (modelled as `ℚ`). -/
inductive PyFloat where
  | nan
  | inf
  | neginf
  | val (q : ℚ)
deriving DecidableEq, Repr

/-- A Python scalar as it can reach the sanitizers: `None`, a float,
an int, a string, or any other object. -/
inductive PyVal where
  | none
  | float (f : PyFloat)
  | int (n : Int)
  | str (s : String)
  | other
deriving DecidableEq, Repr

/-- A Python number as returned by the sanitizers: an `int` or a `float`. -/
inductive PyNum where
  | int (n : Int)
  | float (f : PyFloat)
deriving DecidableEq, Repr

/-- `pyNumFinite r` holds when the returned number is not NaN and not
±Infinity (so it is JSON-serializable). -/
def pyNumFinite : PyNum → Prop
  | .int _ => True
  | .float (.val _) => True
  | .float _ => False

instance : DecidablePred pyNumFinite := fun r =>
  match r with
  | .int _ => isTrue trivial
  | .float (.val _) => isTrue trivial
  | .float .nan => isFalse id
  | .float .inf => isFalse id
  | .float .neginf => isFalse id

/-- `pyNumNonneg r` holds when the returned number is a non-negative
int or a non-negative finite float. -/
def pyNumNonneg : PyNum → Prop
  | .int n => 0 ≤ n
  | .float (.val q) => 0 ≤ q
  | .float _ => False

/-- Fold a digit list into a natural number. -/
def digitsToNat (cs : List Char) : Nat :=
  cs.foldl (fun n c => 10 * n + (c.toNat - 48)) 0

/-- Model of the Python built-in `float(string)` conversion, restricted to
the grammar actually exercised here: optional surrounding whitespace,
optional sign, then `inf`/`infinity`/`nan` (case-insensitive) or a
decimal literal `digits[.digits]`.  Returns `none` when the string does
not parse (Python raises `ValueError` there). -/
def pyFloatOfString (s : String) : Option PyFloat :=
  let t := (pyLower (pyStrip s)).data
  let neg : Bool := match t with
    | '-' :: _ => true
    | _ => false
  let core : List Char := match t with
    | '-' :: rest => rest
    | '+' :: rest => rest
    | _ => t
  if core = "inf".data ∨ core = "infinity".data then
    some (if neg then .neginf else .inf)
  else if core = "nan".data then
    some .nan
  else
    match splitOnCharList '.' core with
    | [ip] =>
        if ip ≠ [] ∧ ip.all Char.isDigit then
          let n : ℚ := (digitsToNat ip : ℚ)
          some (.val (if neg then -n else n))
        else none
    | [ip, fp] =>
        if (ip ≠ [] ∨ fp ≠ []) ∧ ip.all Char.isDigit ∧ fp.all Char.isDigit then
          let n : ℚ :=
            (digitsToNat ip : ℚ) + (digitsToNat fp : ℚ) / ((10 : ℚ) ^ fp.length)
          some (.val (if neg then -n else n))
        else none
    | _ => none

/-- The tail of the string branch of `clean_numeric_value` (app.py, lines
161–172): the result of `float(value)` is checked for NaN/Infinity,
clamped at 0, and collapsed to `int` when integral; a parse failure
(`ValueError`/`TypeError`) yields 0. -/
def countOfParsed : Option PyFloat → PyNum
  | some .nan => .int 0
  | some .inf => .int 0
  | some .neginf => .int 0
  | some (.val q) =>
      if q < 0 then .int 0
      else if q.den = 1 then .int q.num
      else .float (.val q)
  | Option.none => .int 0

/-- Embedding of `clean_numeric_value` (app.py, lines 139–172): the
"failure-count" sanitizer.  `None` and NaN (`pd.isna`) map to 0;
infinities map to 0; negative values clamp to 0; integral floats
collapse to `int`; strings are passed through `float(...)` and then
sanitized the same way; anything unparsable or non-numeric maps to 0. -/
def clean_numeric_value (v : PyVal) : PyNum :=
  match v with
  | .none => .int 0
  | .float .nan => .int 0
  | .float .inf => .int 0
  | .float .neginf => .int 0
  | .float (.val q) =>
      if q < 0 then .int 0
      else if q.den = 1 then .int q.num
      else .float (.val q)
  | .int n => .int (max 0 n)
  | .str s => countOfParsed (pyFloatOfString s)
  | .other => .int 0

/-- The tail of the string branch of `clean_contribution_value` (app.py, lines
188–194): NaN/Infinity map to 0, any other parsed value is returned
as-is; a parse failure yields 0. -/
def contributionOfParsed : Option PyFloat → PyNum
  | some .nan => .int 0
  | some .inf => .int 0
  | some .neginf => .int 0
  | some (.val q) => .float (.val q)
  | Option.none => .int 0

/-- Embedding of `clean_contribution_value` (app.py, lines 175–194): the
"contribution" sanitizer.  `None`/NaN/±Infinity map to 0; finite floats
are returned unchanged (sign preserved); ints are widened to float;
strings go through `float(...)`; unparsable or non-numeric maps to 0. -/
def clean_contribution_value (v : PyVal) : PyNum :=
  match v with
  | .none => .int 0
  | .float .nan => .int 0
  | .float .inf => .int 0
  | .float .neginf => .int 0
  | .float (.val q) => .float (.val q)
  | .int n => .float (.val (n : ℚ))
  | .str s => contributionOfParsed (pyFloatOfString s)
  | .other => .int 0

/-! ## The Metric Catalog -/

/-- Embedding of the `metric_mapping` dict (app.py, lines 474–486, and its
identical copies at 355–367, 655–667, 729–741): internal metric id →
display name, in source insertion order. -/
def metric_mapping : List (String × String) :=
  [("VOICE_CDR_RET_25", "V-CDR"),
   ("LTE_IQI_NS_ESO_25", "NS/ESO"),
   ("LTE_IQI_RSRP_25", "Quality RSRP"),
   ("LTE_IQI_QUALITY_25", "Quality RSRQ"),
   ("VOLTE_RAN_ACBACC_25_ALL", "V-ACC"),
   ("VOLTE_CDR_MOMT_ACC_25", "V-ACC-E2E"),
   ("ALLRAT_DACC_25", "D-ACC"),
   ("ALLRAT_DL_TPUT_25", "DLTPUT"),
   ("ALLRAT_UL_TPUT_25", "ULTPUT"),
   ("ALLRAT_DDR_25", "D-RET"),
   ("VOLTE_WIFI_CDR_25", "WIFI-RET")]

/-- `allowed_metrics = list(metric_mapping.keys())` (app.py, line 535). -/
def allowed_metrics : List String := metric_mapping.map Prod.fst

/-- Embedding of `reverse_mapping = {v: k for k, v in metric_mapping.items()}`
(app.py, line 557).  A Python dict comprehension lets a later duplicate key
overwrite an earlier one, which the lookup on the reversed pair list
reproduces (first match in the reversed list = last binding in source order). -/
def reverse_mapping : List (String × String) :=
  (metric_mapping.map (fun p => (p.2, p.1))).reverse

/-- `reverse_mapping.get(metric_name, metric_name)` (app.py, line 558). -/
def resolve_metric (metric_name : String) : String :=
  (reverse_mapping.lookup metric_name).getD metric_name

/-! ## Request parsing -/

/-- `request.args.get(name, default)`: the query-string arguments are an
association list; a missing key yields the default. -/
def getArg (args : List (String × String)) (name dflt : String) : String :=
  (args.lookup name).getD dflt

/-- The filter parameters of a `/data` request as read in
`get_cqi_data` (app.py, lines 454–461). -/
structure DataRequest where
  submarket : String
  cqeClustersStr : String
  periodStart : String
  periodEnd : String
  metricName : String
  usid : String
  sortingCriteria : String
deriving DecidableEq, Repr

/-- Embedding of the parameter extraction of `get_cqi_data` (app.py,
lines 454–461); every parameter defaults to the empty string except
`sortingCriteria`, which defaults to `"contribution"`. -/
def parse_data_request (args : List (String × String)) : DataRequest :=
  { submarket := getArg args "submarket" ""
    cqeClustersStr := getArg args "cqeClusters" ""
    periodStart := getArg args "periodStart" ""
    periodEnd := getArg args "periodEnd" ""
    metricName := getArg args "metricName" ""
    usid := getArg args "usid" ""
    sortingCriteria := getArg args "sortingCriteria" "contribution" }

/-- Embedding of the cluster-list parsing (app.py, lines 464–467):
split the comma-separated value, strip each piece, keep non-blank
pieces. -/
def parse_cqe_clusters (s : String) : List String :=
  if s ≠ "" then ((pySplit s ',').map pyStrip).filter (fun c => c ≠ "") else []

/-! ## The Query Builder -/

/-- One WHERE-clause predicate appended by the query builder, carrying
its bound parameter values. -/
inductive Cond where
  | metricIn (ms : List String)
  | submktEq (s : String)
  | clusterIn (cs : List String)
  | periodStartGe (t : String)
  | periodEndLe (t : String)
  | metricEq (m : String)
  | usidEq (u : String)
deriving DecidableEq, Repr

/-- Comma-join, as in `','.join(...)`. -/
def joinComma : List String → String
  | [] => ""
  | [s] => s
  | s :: rest => s ++ "," ++ joinComma rest

/-- The SQL text fragment each appended predicate contributes
(app.py, lines 536–564). -/
def condSql : Cond → String
  | .metricIn ms => " AND METRICNAME IN (" ++ joinComma (ms.map fun _ => "%s") ++ ")"
  | .submktEq _ => " AND SUBMKT = %s"
  | .clusterIn cs => " AND CQECLUSTER IN (" ++ joinComma (cs.map fun _ => "%s") ++ ")"
  | .periodStartGe _ => " AND PERIODSTART >= %s"
  | .periodEndLe _ => " AND PERIODEND <= %s"
  | .metricEq _ => " AND METRICNAME = %s"
  | .usidEq _ => " AND USID = %s"

/-- The parameter values each appended predicate contributes, in order. -/
def condParams : Cond → List String
  | .metricIn ms => ms
  | .submktEq s => [s]
  | .clusterIn cs => cs
  | .periodStartGe t => [t]
  | .periodEndLe t => [t]
  | .metricEq m => [m]
  | .usidEq u => [u]

/-- Embedding of the predicate construction of `get_cqi_data` (app.py,
lines 534–564): the allow-list `IN` predicate always comes first, then
each optional filter in the fixed source order, guarded by Python string
truthiness (non-empty).  `metricName` is resolved through the reverse
map with verbatim fallback (line 558). -/
def data_conds (req : DataRequest) : List Cond :=
  Cond.metricIn allowed_metrics ::
  ((if req.submarket ≠ "" then [Cond.submktEq req.submarket] else [])
  ++ (if parse_cqe_clusters req.cqeClustersStr ≠ [] then
        [Cond.clusterIn (parse_cqe_clusters req.cqeClustersStr)] else [])
  ++ (if req.periodStart ≠ "" then
        [Cond.periodStartGe (req.periodStart ++ " 00:00:00")] else [])
  ++ (if req.periodEnd ≠ "" then
        [Cond.periodEndLe (req.periodEnd ++ " 23:59:59")] else [])
  ++ (if req.metricName ≠ "" then
        [Cond.metricEq (resolve_metric req.metricName)] else [])
  ++ (if req.usid ≠ "" then [Cond.usidEq req.usid] else []))

/-- The two aggregate SELECT heads of `get_cqi_data` (app.py, lines
491–532), with whitespace normalized to single spaces.  When all
metrics are aggregated the metric column is the literal sentinel
`\x27ALL\x27`; otherwise it is the grouped `METRICNAME` column. -/
def data_base_query (aggAll : Bool) : String :=
  "SELECT USID, "
  ++ (if aggAll then "\x27ALL\x27 as METRICNAME" else "METRICNAME")
  ++ ", AVG(EXTRAFAILURES) as AVG_EXTRAFAILURES, SUM(EXTRAFAILURES) as TOTAL_EXTRAFAILURES, AVG(IDXCONTR) as AVG_IDXCONTR, SUM(IDXCONTR) as TOTAL_IDXCONTR, COUNT(*) as RECORD_COUNT, MAX(VENDOR) as VENDOR, MAX(CQECLUSTER) as CQECLUSTER, MAX(SUBMKT) as SUBMKT, AVG(FOCUSAREA_L1CQIACTUAL) as AVG_ACTUAL, AVG(CQITARGET) as AVG_TARGET, MIN(PERIODSTART) as EARLIEST_PERIOD, MAX(PERIODEND) as LATEST_PERIOD FROM CQI2025_CQX_CONTRIBUTION WHERE 1=1"

/-- The GROUP BY clause of `get_cqi_data` (app.py, lines 567–570). -/
def data_group_by (aggAll : Bool) : String :=
  if aggAll then " GROUP BY USID" else " GROUP BY USID, METRICNAME"

/-- The ORDER BY clause of `get_cqi_data` (app.py, lines 573–576):
only the exact string `"contribution"` selects the
contribution-ascending order. -/
def data_order_by (sortingCriteria : String) : String :=
  if sortingCriteria = "contribution" then " ORDER BY AVG_IDXCONTR ASC NULLS LAST"
  else " ORDER BY TOTAL_EXTRAFAILURES DESC NULLS LAST"

/-- Concatenate a list of strings. -/
def concatAll (l : List String) : String :=
  l.foldl (fun a b => a ++ b) ""

/-- The complete `/data` SQL statement (app.py, lines 491–578): base
SELECT, appended predicates, GROUP BY, ORDER BY, `LIMIT 1000`. -/
def data_query (req : DataRequest) : String :=
  data_base_query (req.metricName = "")
  ++ concatAll ((data_conds req).map condSql)
  ++ data_group_by (req.metricName = "")
  ++ data_order_by req.sortingCriteria
  ++ " LIMIT 1000"

/-- The ordered parameter list bound to the `/data` statement (app.py,
lines 537–564): the concatenation of the parameters of each appended
predicate, starting with the 11 allow-listed metric ids. -/
def data_params (req : DataRequest) : List String :=
  ((data_conds req).map condParams).flatten

/-- The parameters of a `/usid-detail` request as read in
`get_usid_detail` (app.py, lines 720–723); the endpoint rejects a blank
`usid` with HTTP 400 before building any SQL (lines 725–726). -/
structure UsidDetailRequest where
  usid : String
  periodStart : String
  periodEnd : String
  metricName : String
deriving DecidableEq, Repr

/-- Embedding of the predicate construction of `get_usid_detail`
(app.py, lines 757–775): the allow-list `IN` predicate is appended
right after the base `WHERE USID = %s`, then the optional period and
metric filters. -/
def usid_detail_conds (req : UsidDetailRequest) : List Cond :=
  Cond.metricIn allowed_metrics ::
  ((if req.periodStart ≠ "" then
      [Cond.periodStartGe (req.periodStart ++ " 00:00:00")] else [])
  ++ (if req.periodEnd ≠ "" then
        [Cond.periodEndLe (req.periodEnd ++ " 23:59:59")] else [])
  ++ (if req.metricName ≠ "" then
        [Cond.metricEq (resolve_metric req.metricName)] else []))

/-- The `/usid-detail` SQL statement (app.py, lines 744–781), with
whitespace normalized: base time-series SELECT with `WHERE USID = %s`,
appended predicates, then the per-day grouping and ordering. -/
def usid_detail_query (req : UsidDetailRequest) : String :=
  "SELECT USID, METRICNAME, DATE(PERIODSTART) as DATE, AVG(EXTRAFAILURES) as EXTRAFAILURES, MAX(VENDOR) as VENDOR, MAX(CQECLUSTER) as CQECLUSTER, MAX(SUBMKT) as SUBMKT FROM CQI2025_CQX_CONTRIBUTION WHERE USID = %s"
  ++ concatAll ((usid_detail_conds req).map condSql)
  ++ " GROUP BY USID, METRICNAME, DATE(PERIODSTART) ORDER BY DATE(PERIODSTART), METRICNAME"

/-- The ordered parameter list bound to the `/usid-detail` statement
(app.py, line 759 onward): the requested usid, then the 11 allow-listed
metric ids, then the optional filter values. -/
def usid_detail_params (req : UsidDetailRequest) : List String :=
  req.usid :: ((usid_detail_conds req).map condParams).flatten

/-! ## Warehouse row semantics

The warehouse itself is an external collaborator; to settle claims
about what the built statements can return, the standard SQL meaning of
the specific statement shape the builder emits is modelled here: WHERE
predicates filter rows (a NULL column fails every predicate), GROUP BY
folds the filtered rows, ORDER BY sorts the groups, LIMIT truncates.
Timestamps are modelled as strings in `YYYY-MM-DD HH:MM:SS` form, whose
lexicographic order agrees with chronological order. -/

/-- One raw row of the `CQI2025_CQX_CONTRIBUTION` table; every column
except the identifiers is nullable. -/
structure RawRow where
  usid : String
  metricname : String
  extrafailures : Option ℚ
  idxcontr : Option ℚ
  vendor : Option String
  cqecluster : Option String
  submkt : Option String
  periodstart : Option String
  periodend : Option String
  focusarea_l1cqiactual : Option ℚ
  cqitarget : Option ℚ
deriving DecidableEq, Repr

/-- Boolean string order (used for timestamp comparison and sorting). -/
def strLeB (a b : String) : Bool := decide (a < b) || decide (a = b)

/-- Truth of one built predicate at one raw row (SQL three-valued logic
collapses to false for a NULL operand, so a NULL never satisfies a
predicate). -/
def condHolds (r : RawRow) : Cond → Bool
  | .metricIn ms => decide (r.metricname ∈ ms)
  | .submktEq s => decide (r.submkt = some s)
  | .clusterIn cs =>
      match r.cqecluster with
      | some c => decide (c ∈ cs)
      | none => false
  | .periodStartGe t =>
      match r.periodstart with
      | some p => strLeB t p
      | none => false
  | .periodEndLe t =>
      match r.periodend with
      | some p => strLeB p t
      | none => false
  | .metricEq m => decide (r.metricname = m)
  | .usidEq u => decide (r.usid = u)

/-- A raw row satisfies the WHERE clause of the built `/data`
statement. -/
def data_row_passes (req : DataRequest) (r : RawRow) : Bool :=
  (data_conds req).all (condHolds r)

/-- A raw row satisfies the WHERE clause of the built `/usid-detail`
statement (the base `WHERE USID = %s` plus the appended predicates). -/
def usid_detail_row_passes (req : UsidDetailRequest) (r : RawRow) : Bool :=
  decide (r.usid = req.usid) && (usid_detail_conds req).all (condHolds r)

/-- SQL `SUM` over a nullable column: NULLs are ignored; an all-NULL
(or empty) group yields NULL. -/
def sqlSum (xs : List (Option ℚ)) : Option ℚ :=
  match xs.filterMap id with
  | [] => none
  | vs => some vs.sum

/-- SQL `AVG` over a nullable column: NULLs are ignored; an all-NULL
(or empty) group yields NULL. -/
def sqlAvg (xs : List (Option ℚ)) : Option ℚ :=
  match xs.filterMap id with
  | [] => none
  | vs => some (vs.sum / (vs.length : ℚ))

/-- SQL `MAX` over a nullable string column. -/
def sqlMaxStr (xs : List (Option String)) : Option String :=
  (xs.filterMap id).foldl
    (fun acc s =>
      match acc with
      | none => some s
      | some t => some (if strLeB t s then s else t))
    none

/-- SQL `MIN` over a nullable string column. -/
def sqlMinStr (xs : List (Option String)) : Option String :=
  (xs.filterMap id).foldl
    (fun acc s =>
      match acc with
      | none => some s
      | some t => some (if strLeB s t then s else t))
    none

/-- One row of the `/data` result set, i.e. one GROUP BY group after the
aggregate projection (app.py, lines 493–532). -/
structure ResultRow where
  usid : String
  metricname : String
  avg_extrafailures : Option ℚ
  total_extrafailures : Option ℚ
  avg_idxcontr : Option ℚ
  total_idxcontr : Option ℚ
  record_count : Nat
  vendor : Option String
  cqecluster : Option String
  submkt : Option String
  avg_actual : Option ℚ
  avg_target : Option ℚ
  earliest_period : Option String
  latest_period : Option String
deriving DecidableEq, Repr

/-- The GROUP BY key of the `/data` statement together with the
projected metric label: `GROUP BY USID` with the literal sentinel
`ALL` when aggregating all metrics, `GROUP BY USID, METRICNAME`
otherwise (app.py, lines 493–532 and 567–570). -/
def group_key (aggAll : Bool) (r : RawRow) : String × String :=
  (r.usid, if aggAll then "ALL" else r.metricname)

/-- The distinct values of `key` over `l`, in order of first
occurrence (the distinct grouping keys SQL folds over). -/
def distinctsBy {α β : Type} [DecidableEq β] (key : α → β) (l : List α) : List β :=
  l.foldl (fun acc x => if key x ∈ acc then acc else acc ++ [key x]) []

/-- The aggregate projection applied to one group (app.py, lines
493–529). -/
def aggregate_group (k : String × String) (grp : List RawRow) : ResultRow :=
  { usid := k.1
    metricname := k.2
    avg_extrafailures := sqlAvg (grp.map (fun r => r.extrafailures))
    total_extrafailures := sqlSum (grp.map (fun r => r.extrafailures))
    avg_idxcontr := sqlAvg (grp.map (fun r => r.idxcontr))
    total_idxcontr := sqlSum (grp.map (fun r => r.idxcontr))
    record_count := grp.length
    vendor := sqlMaxStr (grp.map (fun r => r.vendor))
    cqecluster := sqlMaxStr (grp.map (fun r => r.cqecluster))
    submkt := sqlMaxStr (grp.map (fun r => r.submkt))
    avg_actual := sqlAvg (grp.map (fun r => r.focusarea_l1cqiactual))
    avg_target := sqlAvg (grp.map (fun r => r.cqitarget))
    earliest_period := sqlMinStr (grp.map (fun r => r.periodstart))
    latest_period := sqlMaxStr (grp.map (fun r => r.periodend)) }

/-- `X ASC NULLS LAST` as a boolean total preorder on nullable values. -/
def optLeAscNullsLastB : Option ℚ → Option ℚ → Bool
  | some a, some b => decide (a ≤ b)
  | some _, none => true
  | none, some _ => false
  | none, none => true

/-- `X DESC NULLS LAST` as a boolean total preorder on nullable values. -/
def optLeDescNullsLastB : Option ℚ → Option ℚ → Bool
  | some a, some b => decide (b ≤ a)
  | some _, none => true
  | none, some _ => false
  | none, none => true

/-- The row order selected by the ORDER BY clause of `/data` (app.py,
lines 573–576). -/
def data_order_le_b (sortingCriteria : String) (a b : ResultRow) : Bool :=
  if sortingCriteria = "contribution" then
    optLeAscNullsLastB a.avg_idxcontr b.avg_idxcontr
  else
    optLeDescNullsLastB a.total_extrafailures b.total_extrafailures

/-- `data_order_le_b` as a decidable relation, for `List.insertionSort`. -/
def data_order_le (sortingCriteria : String) (a b : ResultRow) : Prop :=
  data_order_le_b sortingCriteria a b = true

instance (sc : String) : DecidableRel (data_order_le sc) := fun a b =>
  inferInstanceAs (Decidable (data_order_le_b sc a b = true))

/-- The raw rows that satisfy the WHERE clause of the built `/data`
statement. -/
def data_filtered (req : DataRequest) (table : List RawRow) : List RawRow :=
  table.filter (fun r => data_row_passes req r)

/-- The distinct grouping keys of the built `/data` statement over
the filtered rows, in order of first occurrence. -/
def data_group_keys (req : DataRequest) (table : List RawRow) :
    List (String × String) :=
  distinctsBy (group_key (req.metricName = "")) (data_filtered req table)

/-- One aggregated result row per distinct grouping key. -/
def data_groups (req : DataRequest) (table : List RawRow) : List ResultRow :=
  (data_group_keys req table).map
    (fun k => aggregate_group k ((data_filtered req table).filter
      (fun r => group_key (req.metricName = "") r = k)))

/-- Relational semantics of the built `/data` statement over a table of
raw rows: filter by the WHERE predicates, group by the grain key,
apply the aggregate projection per group, sort by the selected order,
truncate to 1000 groups. -/
def run_data_query (req : DataRequest) (table : List RawRow) : List ResultRow :=
  ((data_groups req table).insertionSort (data_order_le req.sortingCriteria)).take 1000

/-! ## The Result Normalizer for `/data` -/

/-- How a nullable numeric column value arrives in Python: SQL NULL as
`None`, a value as a float. -/
def pyOfOptQ : Option ℚ → PyVal
  | none => PyVal.none
  | some q => PyVal.float (.val q)

/-- One JSON record emitted by `/data` (app.py, lines 597–633). -/
structure DataRecord where
  usid : String
  metricname : String
  avg_extrafailures : PyNum
  total_extrafailures : PyNum
  avg_idxcontr : PyNum
  total_idxcontr : PyNum
  record_count : Int
  vendor : Option String
  cqecluster : Option String
  submkt : Option String
  avg_actual : PyNum
  avg_target : PyNum
  earliest_period : Option String
  latest_period : Option String
  metric_display : String
  extrafailures : PyNum
  idxcontr : PyNum
deriving DecidableEq, Repr

/-- Embedding of the per-row result processing of `get_cqi_data`
(app.py, lines 598–633): failure-policy sanitization for the failure
and actual/target columns, contribution-policy sanitization for the
contribution columns, integer coercion for the record count, ISO
timestamp pass-through, and the `METRIC_DISPLAY` attachment — the
sentinel `All` when aggregating across metrics or when the metric
column is the sentinel `ALL`, the catalog display name when the metric
id is in the catalog, the raw id string otherwise. -/
def normalize_record (aggAll : Bool) (rr : ResultRow) : DataRecord :=
  let avg_ef := clean_numeric_value (pyOfOptQ rr.avg_extrafailures)
  let avg_ic := clean_contribution_value (pyOfOptQ rr.avg_idxcontr)
  { usid := rr.usid
    metricname := rr.metricname
    avg_extrafailures := avg_ef
    total_extrafailures := clean_numeric_value (pyOfOptQ rr.total_extrafailures)
    avg_idxcontr := avg_ic
    total_idxcontr := clean_contribution_value (pyOfOptQ rr.total_idxcontr)
    record_count := if rr.record_count ≠ 0 then (rr.record_count : Int) else 0
    vendor := rr.vendor
    cqecluster := rr.cqecluster
    submkt := rr.submkt
    avg_actual := clean_numeric_value (pyOfOptQ rr.avg_actual)
    avg_target := clean_numeric_value (pyOfOptQ rr.avg_target)
    earliest_period := rr.earliest_period
    latest_period := rr.latest_period
    metric_display :=
      if aggAll ∨ rr.metricname = "ALL" then "All"
      else
        match metric_mapping.lookup rr.metricname with
        | some d => d
        | none => rr.metricname
    extrafailures := avg_ef
    idxcontr := avg_ic }

/-- The full `/data` read path over a modelled warehouse table: build
and run the statement, then normalize every returned row. -/
def data_endpoint (req : DataRequest) (table : List RawRow) : List DataRecord :=
  (run_data_query req table).map (normalize_record (req.metricName = ""))

/-! ## Connection lifecycle on the `/data` path -/

/-- Which steps of a warehouse interaction succeed: connecting (and
authenticating), executing the statement, fetching the rows. -/
structure WarehouseBehavior where
  connectOk : Bool
  executeOk : Bool
  fetchOk : Bool
deriving DecidableEq, Repr

/-- What happened to the connection and cursor by the time the request
returns. -/
structure ConnTrace where
  connOpened : Bool
  curClosed : Bool
  connClosed : Bool
  errored : Bool
deriving DecidableEq, Repr

/-- Embedding of the resource handling on the `/data` path (app.py,
lines 581–594, inside the try block of 452–639): connect, open a
cursor, execute, fetch, close the cursor, close the connection — in
straight line, with no try/finally or context manager around the
connection.  Any exception jumps to the handler at lines 637–639,
which returns a 500 response without touching the connection.  The
same straight-line pattern appears in `get_filter_options` (lines
349–388) and `get_usid_detail` (lines 784–794). -/
def data_conn_trace (w : WarehouseBehavior) : ConnTrace :=
  if ¬ w.connectOk then
    { connOpened := false, curClosed := false, connClosed := false, errored := true }
  else if ¬ w.executeOk then
    { connOpened := true, curClosed := false, connClosed := false, errored := true }
  else if ¬ w.fetchOk then
    { connOpened := true, curClosed := false, connClosed := false, errored := true }
  else
    { connOpened := true, curClosed := true, connClosed := true, errored := false }

/-! ## The Filter Resolver and the mapping CSV -/

/-- The observable state of the mapping-file environment:
whether `submkt_cqecluster_mapping.csv` exists, whether creating the
sample file would succeed, whether opening/reading the file raises, and
the `(SUBMKT, CQECLUSTER)` cell pairs of its data rows (a missing
column is modelled as the empty string, matching
`row.get(..., defaulting)`). -/
structure MappingFS where
  fileExists : Bool
  writeOk : Bool
  readOk : Bool
  rows : List (String × String)
deriving DecidableEq, Repr

/-- The data rows of the sample mapping file written when the CSV is
missing (app.py, lines 100–108; the header row is consumed by
`DictReader`). -/
def sample_rows : List (String × String) :=
  [("NYC", "CQE_NYC_MANHATTAN"), ("NYC", "CQE_NYC_BROOKLYN"),
   ("LA", "CQE_LA_DOWNTOWN"), ("LA", "CQE_LA_HOLLYWOOD"),
   ("Chicago", "CQE_CHI_NORTH"), ("Chicago", "CQE_CHI_SOUTH")]

/-- `if submarket not in mapping: mapping[submarket] = [];
mapping[submarket].append(cluster)` (app.py, lines 125–127) over an
insertion-ordered association list. -/
def mapping_add (m : List (String × List String)) (s c : String) :
    List (String × List String) :=
  if (m.lookup s).isNone then m ++ [(s, [c])]
  else m.map (fun p => if p.1 = s then (p.1, p.2 ++ [c]) else p)

/-- The row loop of `load_submarket_cluster_mapping` (app.py, lines
120–127): strip both cells, skip a row when either is blank. -/
def build_mapping (rows : List (String × String)) : List (String × List String) :=
  rows.foldl
    (fun m row =>
      if pyStrip row.1 ≠ "" ∧ pyStrip row.2 ≠ "" then
        mapping_add m (pyStrip row.1) (pyStrip row.2)
      else m)
    []

/-- Embedding of `load_submarket_cluster_mapping` (app.py, lines
90–136).  When the CSV is missing, the function first writes a sample
mapping file — outside any try block, so a write failure propagates —
and then reads the file it just wrote.  The read itself is wrapped in
try/except: a read error is caught and yields the empty mapping. -/
def load_submarket_cluster_mapping (fs : MappingFS) :
    Except String (List (String × List String)) :=
  if fs.fileExists then
    if fs.readOk then .ok (build_mapping fs.rows) else .ok []
  else
    if fs.writeOk then
      if fs.readOk then .ok (build_mapping sample_rows) else .ok []
    else .error "unable to create sample mapping file"

/-- Sort a list of strings (Python `sorted`). -/
def sortStrings (l : List String) : List String :=
  l.insertionSort (fun a b => strLeB a b = true)

instance : DecidableRel (fun (a b : String) => strLeB a b = true) := fun x y =>
  inferInstanceAs (Decidable (strLeB x y = true))

/-- The filter-options payload assembled by `get_filter_options`
(metric fields omitted — they are the static catalog). -/
structure FilterOptions where
  submarkets : List String
  cqeClusters : List String
  submarketClusters : List (String × List String)
deriving DecidableEq, Repr

/-- Embedding of the submarket/cluster part of `get_filter_options`
(app.py, lines 390–436), given the distinct submarkets and clusters the
store reports: when the loaded CSV mapping is non-empty, intersect its
submarket keys with the store values and the union of its clusters with
the store values, both sorted; when it is empty, fall back to the raw
store values unfiltered; a propagating loader exception fails the
request (caught at lines 444–446 into a 500 response). -/
def get_filter_options (fs : MappingFS) (db_submarkets db_clusters : List String) :
    Except String FilterOptions :=
  match load_submarket_cluster_mapping fs with
  | .error e => .error e
  | .ok csv_mapping =>
      if csv_mapping ≠ [] then
        .ok { submarkets :=
                sortStrings ((csv_mapping.map Prod.fst).filter
                  (fun s => s ∈ db_submarkets))
              cqeClusters :=
                sortStrings (((csv_mapping.map Prod.snd).flatten.dedup).filter
                  (fun c => c ∈ db_clusters))
              submarketClusters := csv_mapping }
      else
        .ok { submarkets := db_submarkets
              cqeClusters := db_clusters
              submarketClusters := [] }

/-! ## The API surface -/

/-- The routes registered on the Flask app, in source order
(app.py, lines 211, 226, 345, 449, 642, 715). -/
def api_routes : List String :=
  ["/api/health", "/api/test", "/api/filters", "/api/data",
   "/api/summary", "/api/usid-detail"]

/-- Whether a GET path is handled by a registered route; everything
else falls to the 404 handler (app.py, lines 831–833). -/
def dispatch_status (path : String) : Nat :=
  if api_routes.contains path then 200 else 404

/-! ## Concrete fixtures used to instantiate universally quantified
theorems -/

/-- A `/data` request with no filters and the default sort key. -/
def emptyDataRequest : DataRequest :=
  { submarket := "", cqeClustersStr := "", periodStart := "", periodEnd := "",
    metricName := "", usid := "", sortingCriteria := "contribution" }

/-- A `/data` request whose sort key is a misspelling of
`contribution`. -/
def misspelledSortRequest : DataRequest :=
  { submarket := "", cqeClustersStr := "", periodStart := "", periodEnd := "",
    metricName := "", usid := "", sortingCriteria := "contributions" }

/-- A `/data` request whose metric filter is not a catalog display
name. -/
def unknownMetricRequest : DataRequest :=
  { submarket := "", cqeClustersStr := "", periodStart := "", periodEnd := "",
    metricName := "NotARealMetric", usid := "", sortingCriteria := "contribution" }

/-- A `/data` request with a known metric display name. -/
def knownMetricRequest : DataRequest :=
  { submarket := "", cqeClustersStr := "", periodStart := "", periodEnd := "",
    metricName := "V-CDR", usid := "", sortingCriteria := "contribution" }

/-- A `/usid-detail` request with only the required usid. -/
def plainUsidRequest : UsidDetailRequest :=
  { usid := "100", periodStart := "", periodEnd := "", metricName := "" }

/-- A raw warehouse row with an allow-listed metric id and no optional
column values. -/
def ddrRow : RawRow :=
  { usid := "100", metricname := "ALLRAT_DDR_25", extrafailures := none,
    idxcontr := none, vendor := none, cqecluster := none, submkt := none,
    periodstart := none, periodend := none, focusarea_l1cqiactual := none,
    cqitarget := none }

/-- A raw warehouse row with the first allow-listed metric id. -/
def vcdrRow : RawRow :=
  { usid := "100", metricname := "VOICE_CDR_RET_25", extrafailures := none,
    idxcontr := none, vendor := none, cqecluster := none, submkt := none,
    periodstart := none, periodend := none, focusarea_l1cqiactual := none,
    cqitarget := none }

/-! ## Helper lemmas -/

/-- Both sanitizer tails are finite and (for the count policy)
non-negative on every parse outcome. -/
lemma countOfParsed_finite_nonneg (o : Option PyFloat) :
    pyNumFinite (countOfParsed o) ∧ pyNumNonneg (countOfParsed o) := by
  match o with
  | Option.none => exact ⟨trivial, le_refl 0⟩
  | some .nan => exact ⟨trivial, le_refl 0⟩
  | some .inf => exact ⟨trivial, le_refl 0⟩
  | some .neginf => exact ⟨trivial, le_refl 0⟩
  | some (.val q) =>
      simp only [countOfParsed]
      split
      · exact ⟨trivial, le_refl 0⟩
      · next hq =>
          split
          · exact ⟨trivial, Rat.num_nonneg.mpr (not_lt.mp hq)⟩
          · exact ⟨trivial, not_lt.mp hq⟩

lemma contributionOfParsed_finite (o : Option PyFloat) :
    pyNumFinite (contributionOfParsed o) := by
  match o with
  | Option.none => exact trivial
  | some .nan => exact trivial
  | some .inf => exact trivial
  | some .neginf => exact trivial
  | some (.val _) => exact trivial

/-- On a float argument the count sanitizer agrees with its own string
tail. -/
lemma clean_numeric_value_float (f : PyFloat) :
    clean_numeric_value (.float f) = countOfParsed (some f) := by
  cases f <;> rfl

/-- The fold building the distinct-key list preserves `Nodup`. -/
lemma nodup_distinct_foldl {α β : Type} [DecidableEq β] (key : α → β) :
    ∀ (l : List α) (acc : List β), acc.Nodup →
      (l.foldl (fun a x => if key x ∈ a then a else a ++ [key x]) acc).Nodup := by
  intro l
  induction l with
  | nil => intro acc h; exact h
  | cons x xs ih =>
      intro acc hacc
      simp only [List.foldl_cons]
      by_cases hk : key x ∈ acc
      · simpa [hk] using ih acc hacc
      · simp only [if_neg hk]
        refine ih _ ?_
        exact hacc.append (List.nodup_singleton _) (List.disjoint_singleton.mpr hk)

/-- Every member of the distinct-key fold is either an initial key or
the key of some list element. -/
lemma mem_distinct_foldl {α β : Type} [DecidableEq β] (key : α → β) (k : β) :
    ∀ (l : List α) (acc : List β),
      k ∈ l.foldl (fun a x => if key x ∈ a then a else a ++ [key x]) acc →
      k ∈ acc ∨ ∃ x ∈ l, key x = k := by
  intro l
  induction l with
  | nil => intro acc h; exact Or.inl h
  | cons x xs ih =>
      intro acc h
      simp only [List.foldl_cons] at h
      rcases ih _ h with h' | ⟨y, hy, hk⟩
      · by_cases hkx : key x ∈ acc
        · rw [if_pos hkx] at h'
          exact Or.inl h'
        · rw [if_neg hkx] at h'
          rcases List.mem_append.mp h' with h'' | h''
          · exact Or.inl h''
          · exact Or.inr ⟨x, List.mem_cons_self x xs, (List.mem_singleton.mp h'').symm⟩
      · exact Or.inr ⟨y, List.mem_cons_of_mem x hy, hk⟩

lemma distinctsBy_nodup {α β : Type} [DecidableEq β] (key : α → β) (l : List α) :
    (distinctsBy key l).Nodup :=
  nodup_distinct_foldl key l [] List.nodup_nil

lemma mem_distinctsBy {α β : Type} [DecidableEq β] {key : α → β} {l : List α}
    {k : β} (h : k ∈ distinctsBy key l) : ∃ x ∈ l, key x = k := by
  rcases mem_distinct_foldl key k l [] h with h' | h'
  · simp at h'
  · exact h'

/-- The grouping keys projected back out of the aggregated rows are the
distinct keys themselves. -/
lemma data_groups_key_map (req : DataRequest) (table : List RawRow) :
    (data_groups req table).map (fun rr => (rr.usid, rr.metricname)) =
      data_group_keys req table := by
  unfold data_groups
  rw [List.map_map]
  have hfun : ((fun rr : ResultRow => (rr.usid, rr.metricname)) ∘
      fun k => aggregate_group k ((data_filtered req table).filter
        (fun r => group_key (req.metricName = "") r = k))) = fun k => k := by
    funext k
    rfl
  rw [hfun]
  simp

/-- The (usid, metric) pairs of the `/data` result rows never repeat. -/
lemma run_data_query_key_nodup (req : DataRequest) (table : List RawRow) :
    ((run_data_query req table).map (fun rr => (rr.usid, rr.metricname))).Nodup := by
  have h1 : (data_group_keys req table).Nodup := by
    unfold data_group_keys
    exact distinctsBy_nodup _ _
  have h2 : ((data_groups req table).map (fun rr => (rr.usid, rr.metricname))).Nodup := by
    rw [data_groups_key_map]
    exact h1
  have hperm : List.Perm
      (((data_groups req table).insertionSort (data_order_le req.sortingCriteria)).map
        (fun rr => (rr.usid, rr.metricname)))
      ((data_groups req table).map (fun rr => (rr.usid, rr.metricname))) :=
    (List.perm_insertionSort _ _).map _
  have h3 := hperm.nodup_iff.mpr h2
  have h4 : List.Sublist
      ((run_data_query req table).map (fun rr => (rr.usid, rr.metricname)))
      (((data_groups req table).insertionSort (data_order_le req.sortingCriteria)).map
        (fun rr => (rr.usid, rr.metricname))) := by
    unfold run_data_query
    exact (List.take_sublist _ _).map _
  exact h4.nodup h3

/-- Every `/data` result row takes its key from some filtered raw
row. -/
lemma mem_run_data_query {req : DataRequest} {table : List RawRow}
    {rr : ResultRow} (h : rr ∈ run_data_query req table) :
    ∃ r ∈ data_filtered req table,
      group_key (req.metricName = "") r = (rr.usid, rr.metricname) := by
  unfold run_data_query at h
  have h1 : rr ∈ (data_groups req table).insertionSort
      (data_order_le req.sortingCriteria) :=
    List.take_subset _ _ h
  have h2 : rr ∈ data_groups req table :=
    (List.perm_insertionSort _ _).mem_iff.mp h1
  unfold data_groups at h2
  rcases List.mem_map.mp h2 with ⟨k, hk, heq⟩
  have hkey : (rr.usid, rr.metricname) = k := by
    subst heq
    rfl
  unfold data_group_keys at hk
  rcases mem_distinctsBy hk with ⟨r, hr, hkr⟩
  exact ⟨r, hr, by rw [hkr, ← hkey]⟩

/-- Every filtered `/data` row carries an allow-listed metric id. -/
lemma mem_data_filtered_allowlist {req : DataRequest} {table : List RawRow}
    {r : RawRow} (h : r ∈ data_filtered req table) :
    r.metricname ∈ allowed_metrics := by
  unfold data_filtered at h
  have hp := (List.mem_filter.mp h).2
  simp only [data_row_passes, data_conds, List.all_cons, Bool.and_eq_true,
    condHolds, decide_eq_true_eq] at hp
  exact hp.1

/-- In a pair list with constant second component, `Nodup` transfers to
the first components. -/
lemma nodup_map_fst_of_snd_const (c : String) {l : List (String × String)}
    (hc : ∀ p ∈ l, p.2 = c) (h : l.Nodup) : (l.map Prod.fst).Nodup := by
  induction l with
  | nil => exact List.nodup_nil
  | cons p ps ih =>
      rw [List.map_cons, List.nodup_cons]
      rw [List.nodup_cons] at h
      refine ⟨?_, ih (fun q hq => hc q (List.mem_cons_of_mem p hq)) h.2⟩
      intro hmem
      rcases List.mem_map.mp hmem with ⟨q, hq, hfst⟩
      have hq2 : q.2 = c := hc q (List.mem_cons_of_mem p hq)
      have hp2 : p.2 = c := hc p (List.mem_cons_self p ps)
      have hqp : q = p := Prod.ext hfst (hq2.trans hp2.symm)
      exact h.1 (hqp ▸ hq)

/-- Normalization attaches the sentinel label when aggregating across
metrics. -/
lemma normalize_record_display_all (rr : ResultRow) :
    (normalize_record true rr).metric_display = "All" := by
  simp [normalize_record]

/-- Normalization attaches the looked-up display name at the
per-metric grain. -/
lemma normalize_record_display_of_lookup {rr : ResultRow}
    (hne : rr.metricname ≠ "ALL") {d : String}
    (hd : metric_mapping.lookup rr.metricname = some d) :
    (normalize_record false rr).metric_display = d := by
  simp [normalize_record, hne, hd]

/-! ## Claim theorems -/

/-- **C2**: the failure-count sanitizer is total over the Python value
domain and never returns a negative number, NaN, or Infinity;
`clean_numeric_value(-5) = 0`, `clean_numeric_value(None) = 0`,
`clean_numeric_value(NaN) = 0`, `clean_numeric_value(Infinity) = 0`,
non-numeric inputs map to 0, `clean_numeric_value(3.0) = 3` (integral
collapse to int), and `clean_numeric_value(3.5) = 3.5` (non-integral
non-negative value returned unchanged). -/
theorem clean_numeric_value_spec :
    (∀ v : PyVal,
        pyNumFinite (clean_numeric_value v) ∧ pyNumNonneg (clean_numeric_value v))
    ∧ clean_numeric_value (.int (-5)) = .int 0
    ∧ clean_numeric_value .none = .int 0
    ∧ clean_numeric_value (.float .nan) = .int 0
    ∧ clean_numeric_value (.float .inf) = .int 0
    ∧ clean_numeric_value (.float .neginf) = .int 0
    ∧ clean_numeric_value (.str "garbage") = .int 0
    ∧ clean_numeric_value .other = .int 0
    ∧ clean_numeric_value (.float (.val 3)) = .int 3
    ∧ clean_numeric_value (.float (.val (7 / 2))) = .float (.val (7 / 2)) := by
  refine ⟨?_, by decide, by decide, by decide, by decide, by decide, by decide,
    by decide, by decide, ?_⟩
  · intro v
    cases v with
    | none => exact ⟨trivial, le_refl 0⟩
    | other => exact ⟨trivial, le_refl 0⟩
    | int n => exact ⟨trivial, le_max_left 0 n⟩
    | float f => rw [clean_numeric_value_float]; exact countOfParsed_finite_nonneg _
    | str s => exact countOfParsed_finite_nonneg _
  · norm_num [clean_numeric_value]

/-- **C3**: the contribution sanitizer is total, never returns NaN or
Infinity, maps `None`/NaN/±Infinity/non-numeric inputs to 0, and
otherwise preserves the value including its sign: every finite float
comes back unchanged (in particular `-12.5 = -(25/2)` maps to itself)
and every int comes back as the same value widened to float. -/
theorem clean_contribution_value_spec :
    (∀ v : PyVal, pyNumFinite (clean_contribution_value v))
    ∧ (∀ q : ℚ, clean_contribution_value (.float (.val q)) = .float (.val q))
    ∧ (∀ n : Int, clean_contribution_value (.int n) = .float (.val (n : ℚ)))
    ∧ clean_contribution_value .none = .int 0
    ∧ clean_contribution_value (.float .nan) = .int 0
    ∧ clean_contribution_value (.float .inf) = .int 0
    ∧ clean_contribution_value (.float .neginf) = .int 0
    ∧ clean_contribution_value (.str "garbage") = .int 0
    ∧ clean_contribution_value .other = .int 0
    ∧ clean_contribution_value (.float (.val (-(25 / 2)))) = .float (.val (-(25 / 2))) := by
  refine ⟨?_, fun q => rfl, fun n => rfl, by decide, by decide, by decide,
    by decide, by decide, by decide, rfl⟩
  intro v
  cases v with
  | none => exact trivial
  | other => exact trivial
  | int n => exact trivial
  | float f => cases f <;> exact trivial
  | str s => exact contributionOfParsed_finite _

/-- **C8**: round-trip through the Metric Catalog — the allow-list has
11 entries, all display names are distinct, and for every internal id
in the allow-list, looking up its display name in the forward map and
then applying the reverse map yields the original internal id. -/
theorem metric_catalog_roundtrip :
    allowed_metrics.length = 11
    ∧ (metric_mapping.map Prod.snd).Nodup
    ∧ ∀ m ∈ allowed_metrics,
        (metric_mapping.lookup m).bind (fun d => reverse_mapping.lookup d) = some m := by
  exact ⟨by decide, by decide, by decide⟩

/-- Witness for **C8** at the first allow-list entry. -/
theorem metric_catalog_roundtrip_witness :
    (metric_mapping.lookup "VOICE_CDR_RET_25").bind
      (fun d => reverse_mapping.lookup d) = some "VOICE_CDR_RET_25" :=
  metric_catalog_roundtrip.2.2 "VOICE_CDR_RET_25" (by decide)

/-- **C10**: the `/data` sort key is compared only against the exact
string `"contribution"`: any other value (no validation, no error)
yields a statement ending in `ORDER BY TOTAL_EXTRAFAILURES DESC NULLS
LAST`, while exactly `"contribution"` — which is also the default when
the parameter is absent — yields `ORDER BY AVG_IDXCONTR ASC NULLS
LAST`. -/
theorem sorting_criteria_exact_match :
    (∀ req : DataRequest, req.sortingCriteria ≠ "contribution" →
        data_query req =
          data_base_query (req.metricName = "")
          ++ concatAll ((data_conds req).map condSql)
          ++ data_group_by (req.metricName = "")
          ++ " ORDER BY TOTAL_EXTRAFAILURES DESC NULLS LAST"
          ++ " LIMIT 1000")
    ∧ (∀ req : DataRequest, req.sortingCriteria = "contribution" →
        data_query req =
          data_base_query (req.metricName = "")
          ++ concatAll ((data_conds req).map condSql)
          ++ data_group_by (req.metricName = "")
          ++ " ORDER BY AVG_IDXCONTR ASC NULLS LAST"
          ++ " LIMIT 1000")
    ∧ ∀ args : List (String × String), args.lookup "sortingCriteria" = none →
        (parse_data_request args).sortingCriteria = "contribution" := by
  refine ⟨?_, ?_, ?_⟩
  · intro req h
    unfold data_query data_order_by
    rw [if_neg h]
  · intro req h
    unfold data_query data_order_by
    rw [if_pos h]
  · intro args h
    simp [parse_data_request, getArg, h]

/-- Witness for **C10**: an unrecognized sort key (a misspelling) at a
concrete request orders by total failures descending. -/
theorem sorting_criteria_exact_match_witness :
    data_query misspelledSortRequest =
      data_base_query (misspelledSortRequest.metricName = "")
      ++ concatAll ((data_conds misspelledSortRequest).map condSql)
      ++ data_group_by (misspelledSortRequest.metricName = "")
      ++ " ORDER BY TOTAL_EXTRAFAILURES DESC NULLS LAST"
      ++ " LIMIT 1000" :=
  sorting_criteria_exact_match.1 misspelledSortRequest (by decide)

/-- **C9**: a present metric display-name filter never makes the
builder fail: the builder always appends a `METRICNAME = %s` predicate
whose bound value is the reverse-map resolution — the raw request
string verbatim when the reverse map misses (permissive pass-through),
the resolved internal id when it hits. -/
theorem unknown_metric_passthrough :
    ∀ req : DataRequest, req.metricName ≠ "" →
      Cond.metricEq (resolve_metric req.metricName) ∈ data_conds req
      ∧ resolve_metric req.metricName ∈ data_params req
      ∧ (reverse_mapping.lookup req.metricName = none →
          resolve_metric req.metricName = req.metricName)
      ∧ (∀ internal, reverse_mapping.lookup req.metricName = some internal →
          resolve_metric req.metricName = internal) := by
  intro req h
  have hmem : Cond.metricEq (resolve_metric req.metricName) ∈ data_conds req := by
    simp [data_conds, h]
  refine ⟨hmem, ?_, ?_, ?_⟩
  · refine List.mem_flatten.mpr ⟨condParams (Cond.metricEq (resolve_metric req.metricName)), ?_, ?_⟩
    · exact List.mem_map_of_mem _ hmem
    · simp [condParams]
  · intro hnone
    simp [resolve_metric, hnone]
  · intro internal hsome
    simp [resolve_metric, hsome]

/-- Witness for **C9** at the unknown display name `NotARealMetric`. -/
theorem unknown_metric_passthrough_witness :
    Cond.metricEq (resolve_metric unknownMetricRequest.metricName) ∈
      data_conds unknownMetricRequest
    ∧ resolve_metric unknownMetricRequest.metricName ∈
        data_params unknownMetricRequest
    ∧ (reverse_mapping.lookup unknownMetricRequest.metricName = none →
        resolve_metric unknownMetricRequest.metricName =
          unknownMetricRequest.metricName)
    ∧ (∀ internal,
        reverse_mapping.lookup unknownMetricRequest.metricName = some internal →
          resolve_metric unknownMetricRequest.metricName = internal) :=
  unknown_metric_passthrough unknownMetricRequest (by decide)

/-- **C1**: every `/data` statement and every `/usid-detail` statement
carries the `METRICNAME IN (...)` predicate bound to exactly the
11-entry allow-list of the Metric Catalog — it is always among the
built predicates, its parameters head the bound parameter list, and
its SQL text has exactly 11 placeholders — so any row satisfying the
built WHERE clause has an allow-listed metric id, regardless of which
other filters are present. -/
theorem allowlist_always_enforced :
    (∀ req : DataRequest,
        Cond.metricIn allowed_metrics ∈ data_conds req
        ∧ (∃ rest, data_params req = allowed_metrics ++ rest)
        ∧ ∀ r : RawRow, data_row_passes req r = true →
            r.metricname ∈ allowed_metrics)
    ∧ (∀ req : UsidDetailRequest,
        Cond.metricIn allowed_metrics ∈ usid_detail_conds req
        ∧ (∃ rest, usid_detail_params req = req.usid :: (allowed_metrics ++ rest))
        ∧ ∀ r : RawRow, usid_detail_row_passes req r = true →
            r.metricname ∈ allowed_metrics)
    ∧ condSql (Cond.metricIn allowed_metrics) =
        " AND METRICNAME IN (%s,%s,%s,%s,%s,%s,%s,%s,%s,%s,%s)"
    ∧ condParams (Cond.metricIn allowed_metrics) = allowed_metrics
    ∧ allowed_metrics.length = 11 := by
  refine ⟨?_, ?_, by decide, rfl, by decide⟩
  · intro req
    refine ⟨by simp [data_conds], ⟨_, rfl⟩, ?_⟩
    intro r h
    simp only [data_row_passes, data_conds, List.all_cons, Bool.and_eq_true,
      condHolds, decide_eq_true_eq] at h
    exact h.1
  · intro req
    refine ⟨by simp [usid_detail_conds], ⟨_, rfl⟩, ?_⟩
    intro r h
    simp only [usid_detail_row_passes, usid_detail_conds, List.all_cons,
      Bool.and_eq_true, condHolds, decide_eq_true_eq] at h
    exact h.2.1

/-- Witness for **C1**: a concrete row passing the `/data` filter with
no optional filters, and a concrete row passing a `/usid-detail`
filter, both have allow-listed metric ids. -/
theorem allowlist_always_enforced_witness :
    ddrRow.metricname ∈ allowed_metrics
    ∧ vcdrRow.metricname ∈ allowed_metrics :=
  ⟨(allowlist_always_enforced.1 emptyDataRequest).2.2 ddrRow (by decide),
   (allowlist_always_enforced.2.1 plainUsidRequest).2.2 vcdrRow (by decide)⟩

/-- **C5, counterexample**: the claim that the warehouse connection and
cursor are released on every exit path fails — when statement execution
raises, the `/data` handler has opened a connection, errors out, and
neither the cursor nor the connection is closed. -/
theorem data_conn_leak_on_query_error :
    (data_conn_trace { connectOk := true, executeOk := false, fetchOk := true }).connOpened = true
    ∧ (data_conn_trace { connectOk := true, executeOk := false, fetchOk := true }).errored = true
    ∧ (data_conn_trace { connectOk := true, executeOk := false, fetchOk := true }).connClosed = false
    ∧ (data_conn_trace { connectOk := true, executeOk := false, fetchOk := true }).curClosed = false := by
  decide

/-- **C5, amended**: the `/data` handler closes the cursor and the
connection exactly on the non-exceptional path: when execution and
fetching succeed both are closed, and whenever the connection was
opened but an exception occurred (execution or fetch failure) the
connection is left open — the straight-line close calls are skipped by
the jump to the except handler. -/
theorem data_conn_closed_iff_no_error :
    ∀ w : WarehouseBehavior,
      ((data_conn_trace w).errored = false →
        (data_conn_trace w).curClosed = true ∧ (data_conn_trace w).connClosed = true)
      ∧ ((data_conn_trace w).connClosed = true → (data_conn_trace w).errored = false)
      ∧ ((data_conn_trace w).connOpened = true → (data_conn_trace w).errored = true →
          (data_conn_trace w).connClosed = false ∧ (data_conn_trace w).curClosed = false) := by
  intro w
  rcases w with ⟨c, e, f⟩
  cases c <;> cases e <;> cases f <;> exact ⟨by decide, by decide, by decide⟩

/-- Witness for the amended **C5** on the all-success behavior. -/
theorem data_conn_closed_iff_no_error_witness :
    (data_conn_trace { connectOk := true, executeOk := true, fetchOk := true }).curClosed = true
    ∧ (data_conn_trace { connectOk := true, executeOk := true, fetchOk := true }).connClosed = true :=
  (data_conn_closed_iff_no_error
    { connectOk := true, executeOk := true, fetchOk := true }).1 (by decide)

/-- **C6, counterexample**: the claim that a missing mapping file makes
the Filter Resolver return an empty map and fall back to the raw store
values fails — when the file is missing (and the sample file can be
created and read), the loader returns the non-empty sample mapping, and
`/filters` takes the CSV intersection path instead of returning the raw
store values; moreover, when creating the sample file also fails, the
load error propagates and the `/filters` request fails. -/
theorem missing_mapping_file_not_fallback :
    load_submarket_cluster_mapping
        { fileExists := false, writeOk := true, readOk := true, rows := [] } =
      .ok [("NYC", ["CQE_NYC_MANHATTAN", "CQE_NYC_BROOKLYN"]),
           ("LA", ["CQE_LA_DOWNTOWN", "CQE_LA_HOLLYWOOD"]),
           ("Chicago", ["CQE_CHI_NORTH", "CQE_CHI_SOUTH"])]
    ∧ get_filter_options
        { fileExists := false, writeOk := true, readOk := true, rows := [] }
        ["Dallas"] ["CQE_DAL_NORTH"] =
      .ok { submarkets := [], cqeClusters := [],
            submarketClusters :=
              [("NYC", ["CQE_NYC_MANHATTAN", "CQE_NYC_BROOKLYN"]),
               ("LA", ["CQE_LA_DOWNTOWN", "CQE_LA_HOLLYWOOD"]),
               ("Chicago", ["CQE_CHI_NORTH", "CQE_CHI_SOUTH"])] }
    ∧ get_filter_options
        { fileExists := false, writeOk := false, readOk := true, rows := [] }
        ["Dallas"] ["CQE_DAL_NORTH"] =
      .error "unable to create sample mapping file" := by
  exact ⟨rfl, rfl, rfl⟩

/-- **C6, amended**: when the mapping file exists but reading it
raises, the loader catches the error, returns the empty mapping, and
`/filters` falls back to the raw store values unfiltered; when the
file is missing and the sample file can be written and read, the
loader returns the sample mapping (not the empty one); when the file
is missing and writing the sample also fails, the error propagates and
the `/filters` request fails. -/
theorem mapping_unreadable_falls_back :
    ∀ (fs : MappingFS) (dbSubmarkets dbClusters : List String),
      (fs.fileExists = true → fs.readOk = false →
        load_submarket_cluster_mapping fs = .ok []
        ∧ get_filter_options fs dbSubmarkets dbClusters =
            .ok { submarkets := dbSubmarkets, cqeClusters := dbClusters,
                  submarketClusters := [] })
      ∧ (fs.fileExists = false → fs.writeOk = true → fs.readOk = true →
          load_submarket_cluster_mapping fs = .ok (build_mapping sample_rows))
      ∧ (fs.fileExists = false → fs.writeOk = false →
          get_filter_options fs dbSubmarkets dbClusters =
            .error "unable to create sample mapping file") := by
  intro fs dbSubmarkets dbClusters
  refine ⟨?_, ?_, ?_⟩
  · intro hex hread
    have hload : load_submarket_cluster_mapping fs = .ok [] := by
      simp [load_submarket_cluster_mapping, hex, hread]
    refine ⟨hload, ?_⟩
    simp [get_filter_options, hload]
  · intro hex hwrite hread
    simp [load_submarket_cluster_mapping, hex, hwrite, hread]
  · intro hex hwrite
    have hload : load_submarket_cluster_mapping fs =
        .error "unable to create sample mapping file" := by
      simp [load_submarket_cluster_mapping, hex, hwrite]
    simp [get_filter_options, hload]

/-- Witness for the amended **C6**: a present but unreadable mapping
file degrades `/filters` to the raw store values. -/
theorem mapping_unreadable_falls_back_witness :
    load_submarket_cluster_mapping
        { fileExists := true, writeOk := true, readOk := false,
          rows := [("X", "A")] } = .ok []
    ∧ get_filter_options
        { fileExists := true, writeOk := true, readOk := false,
          rows := [("X", "A")] } ["S1"] ["C1"] =
        .ok { submarkets := ["S1"], cqeClusters := ["C1"],
              submarketClusters := [] } :=
  (mapping_unreadable_falls_back
    { fileExists := true, writeOk := true, readOk := false, rows := [("X", "A")] }
    ["S1"] ["C1"]).1 (by decide) (by decide)

/-- **C7, counterexample**: the claim that the API surface includes a
`GET /export` route fails — no export path is registered, and a GET of
either export path falls to the 404 handler. -/
theorem no_export_route :
    ("/api/export" ∉ api_routes) ∧ ("/export" ∉ api_routes) := by
  decide

/-- **C4**: when the metric display-name filter is absent, `/data`
groups by entity id alone — no `usid` repeats across emitted records
and every emitted record has the metric label `All`; when the filter
is present, `/data` groups by (usid, internal metric id) — no such
pair repeats, and the metric label is the display name of the metric
id of the record. -/
theorem data_grain_invariant :
    ∀ (req : DataRequest) (table : List RawRow),
      (req.metricName = "" →
        ((data_endpoint req table).map (fun rec => rec.usid)).Nodup
        ∧ ∀ rec ∈ data_endpoint req table, rec.metric_display = "All")
      ∧ (req.metricName ≠ "" →
        ((data_endpoint req table).map
          (fun rec => (rec.usid, rec.metricname))).Nodup
        ∧ ∀ rec ∈ data_endpoint req table,
            metric_mapping.lookup rec.metricname = some rec.metric_display) := by
  intro req table
  have hmapeq : (data_endpoint req table).map (fun rec => (rec.usid, rec.metricname))
      = (run_data_query req table).map (fun rr => (rr.usid, rr.metricname)) := by
    unfold data_endpoint
    rw [List.map_map]
    rfl
  constructor
  · intro h
    have hb : (decide (req.metricName = "")) = true := decide_eq_true h
    constructor
    · have husid : (data_endpoint req table).map (fun rec => rec.usid)
          = ((data_endpoint req table).map
              (fun rec => (rec.usid, rec.metricname))).map Prod.fst := by
        rw [List.map_map]
        rfl
      rw [husid, hmapeq]
      refine nodup_map_fst_of_snd_const "ALL" ?_
        (run_data_query_key_nodup req table)
      intro p hp
      rcases List.mem_map.mp hp with ⟨rr, hrr, hpe⟩
      rcases mem_run_data_query hrr with ⟨r, hrf, hkey⟩
      rw [hb] at hkey
      have hall : rr.metricname = "ALL" := by
        have hsnd := congrArg Prod.snd hkey
        simpa [group_key] using hsnd.symm
      rw [← hpe]
      simpa using hall
    · intro rec hrec
      unfold data_endpoint at hrec
      rcases List.mem_map.mp hrec with ⟨rr, hrr, hne⟩
      rw [← hne, hb]
      exact normalize_record_display_all rr
  · intro h
    have hb : (decide (req.metricName = "")) = false := decide_eq_false h
    constructor
    · rw [hmapeq]
      exact run_data_query_key_nodup req table
    · intro rec hrec
      unfold data_endpoint at hrec
      rcases List.mem_map.mp hrec with ⟨rr, hrr, hne⟩
      rcases mem_run_data_query hrr with ⟨r, hrf, hkey⟩
      rw [hb] at hkey
      have hmetr : rr.metricname = r.metricname := by
        have hsnd := congrArg Prod.snd hkey
        simpa [group_key] using hsnd.symm
      have hmem : rr.metricname ∈ allowed_metrics := by
        rw [hmetr]
        exact mem_data_filtered_allowlist hrf
      have hnotall : rr.metricname ≠ "ALL" := by
        intro hEq
        have hin : ("ALL" : String) ∈ allowed_metrics := hEq ▸ hmem
        exact absurd hin (by decide)
      have hsome : (metric_mapping.lookup rr.metricname).isSome := by
        have hdec : ∀ m ∈ allowed_metrics, (metric_mapping.lookup m).isSome := by
          decide
        exact hdec _ hmem
      rcases Option.isSome_iff_exists.mp hsome with ⟨d, hd⟩
      have hdisp : (normalize_record false rr).metric_display = d :=
        normalize_record_display_of_lookup hnotall hd
      rw [← hne, hb]
      have hmn : (normalize_record false rr).metricname = rr.metricname := rfl
      rw [hmn, hdisp, hd]

/-- Witness for **C4** at the empty request and the empty table. -/
theorem data_grain_invariant_witness :
    ((data_endpoint emptyDataRequest []).map (fun rec => rec.usid)).Nodup
    ∧ ∀ rec ∈ data_endpoint emptyDataRequest [], rec.metric_display = "All" :=
  (data_grain_invariant emptyDataRequest []).1 rfl

/-- **C7, amended**: the API surface consists of exactly the six
registered routes (health, test, filters, data, summary, usid-detail,
all under the `/api` prefix); there is no export route, and a `GET
/export` (or `/api/export`) request is answered by the 404 handler. -/
theorem export_requests_hit_404 :
    api_routes.length = 6
    ∧ dispatch_status "/api/export" = 404
    ∧ dispatch_status "/export" = 404
    ∧ dispatch_status "/api/data" = 200 := by
  decide

end CqxDash
